import Mathlib

/-!
Shallow embedding of the Kura Galaan e-commerce backend (src/index.js).

The backend exposes three HTTP handlers over an external document store
(collections: orders, products, carts, users, search_index) and a payments
provider, plus two document triggers.  We model the store as explicit state:
orders as an association list over generated numeric ids (a fresh-id counter
models document-id generation by add), products as an association list from
product id to its stock field (the only product field the order handler
touches), carts as a function from user id to an optional cart document, and
users as an association list.  Handlers become pure functions from an
environment (payment-intent status lookup, token verification) and a store to
a new store and a response; the analytics handler additionally returns the
list of collections it fully scanned, so that "performs no collection read"
is an observable fact.  Server timestamps are an explicit clock parameter.
JavaScript-specific behaviour is embedded faithfully: the or-zero fallback on
a missing total, Math.round as floor of x + 1/2 on exact rationals, filter
over truthiness dropping empty strings, and failure of a batched update that
targets a missing document.
-/

namespace KuraGalaan

/-- A line item of an order request: productId and quantity. -/
structure Item where
  productId : String
  quantity : Int
deriving DecidableEq

/-- An order document as written by the process-order handler
(src/index.js lines 44-53).  `total` is optional because the request body
field may be absent. -/
structure Order where
  userId : String
  items : List Item
  total : Option Int
  shippingAddress : String
  paymentIntentId : String
  status : String
  createdAt : Int
  updatedAt : Int
deriving DecidableEq

/-- A user document; only email and role are read by this backend. -/
structure User where
  email : String
  role : String
deriving DecidableEq

/-- The document store state visible to the HTTP handlers. -/
structure Store where
  orders : List (Nat × Order)
  nextId : Nat
  products : List (String × Int)
  carts : String → Option (List Item)
  users : List (String × User)

/-- Look a document up by key in a collection modelled as an association
list. -/
def lookupDoc {β : Type} : List (String × β) → String → Option β
  | [], _ => none
  | e :: rest, k => if e.1 = k then some e.2 else lookupDoc rest k

/-- The request body of POST /process-order. -/
structure Req where
  userId : String
  items : List Item
  total : Option Int
  shippingAddress : String
  paymentIntentId : String

/-- The HTTP response of the process-order handler: 200 with the new order id
and status success, or an error status with a message. -/
inductive POResp where
  | ok (orderId : Nat)
  | err (code : Nat) (msg : String)
deriving DecidableEq

/-- The HTTP status code of a process-order response. -/
def POResp.code : POResp → Nat
  | .ok _ => 200
  | .err c _ => c

/-- One batched update: decrement the stock field of the product keyed
`pid` by `q` (FieldValue.increment with a negative delta). -/
def decrementAll (ps : List (String × Int)) (pid : String) (q : Int) :
    List (String × Int) :=
  ps.map (fun e => if e.1 = pid then (e.1, e.2 - q) else e)

/-- The batched inventory update of src/index.js lines 56-63: one update per
item, committed atomically.  An update that targets a missing product
document makes the whole batch fail (`none`), leaving the products
collection untouched at the call site. -/
def applyBatch : List (String × Int) → List Item → Option (List (String × Int))
  | ps, [] => some ps
  | ps, it :: rest =>
    match lookupDoc ps it.productId with
    | none => none
    | some _ => applyBatch (decrementAll ps it.productId it.quantity) rest

/-- Total quantity that the item list decrements from the product keyed
`pid` (summing duplicates). -/
def qsum : List Item → String → Int
  | [], _ => 0
  | it :: rest, pid => (if it.productId = pid then it.quantity else 0) + qsum rest pid

/-- The POST /process-order handler (src/index.js lines 33-73).
`piStatus` models the payments provider: the status of the payment intent
with the given id, or `none` when retrieval throws.  `now` models the
server timestamp.  Returns the updated store and the HTTP response. -/
def processOrder (piStatus : String → Option String) (now : Int)
    (st : Store) (req : Req) : Store × POResp :=
  match piStatus req.paymentIntentId with
  | none => (st, .err 500 "stripe retrieve failed")
  | some s =>
    if s ≠ "succeeded" then
      (st, .err 400 "Payment not completed")
    else
      let ord : Order :=
        ⟨req.userId, req.items, req.total, req.shippingAddress,
         req.paymentIntentId, "confirmed", now, now⟩
      let st1 : Store :=
        { st with orders := st.orders ++ [(st.nextId, ord)], nextId := st.nextId + 1 }
      match applyBatch st1.products req.items with
      | none => (st1, .err 500 "batch commit failed")
      | some ps =>
        let st2 : Store := { st1 with products := ps }
        let st3 : Store :=
          { st2 with carts := fun u => if u = req.userId then none else st2.carts u }
        (st3, .ok st.nextId)

end KuraGalaan

namespace KuraGalaan

lemma lookupDoc_decrementAll (ps : List (String × Int)) (pid : String) (q : Int)
    (p : String) :
    lookupDoc (decrementAll ps pid q) p =
      if p = pid then (lookupDoc ps p).map (fun s => s - q) else lookupDoc ps p := by
  induction ps with
  | nil => simp [lookupDoc, decrementAll]
  | cons e rest ih =>
    simp only [decrementAll, List.map_cons] at ih ⊢
    by_cases he : e.1 = pid
    · subst he
      by_cases hp : e.1 = p
      · subst hp
        simp [lookupDoc]
      · have hp' : ¬ p = e.1 := fun h => hp h.symm
        simp [lookupDoc, hp, hp', ih]
    · by_cases hp : e.1 = p
      · subst hp
        simp [lookupDoc, he]
      · have hp' : ¬ p = e.1 := fun h => hp h.symm
        simp [lookupDoc, he, hp, ih]

lemma applyBatch_eq (items : List Item) (ps : List (String × Int))
    (hex : ∀ it ∈ items, (lookupDoc ps it.productId).isSome) :
    ∃ ps2, applyBatch ps items = some ps2 ∧
      ∀ pid, lookupDoc ps2 pid = (lookupDoc ps pid).map (fun s => s - qsum items pid) := by
  induction items generalizing ps with
  | nil =>
    refine ⟨ps, rfl, fun pid => ?_⟩
    cases h : lookupDoc ps pid <;> simp [qsum]
  | cons it rest ih =>
    have hhead := hex it (List.mem_cons_self it rest)
    obtain ⟨s, hs⟩ := Option.isSome_iff_exists.mp hhead
    have hrest : ∀ it' ∈ rest,
        (lookupDoc (decrementAll ps it.productId it.quantity) it'.productId).isSome := by
      intro it' hmem
      rw [lookupDoc_decrementAll]
      by_cases hp : it'.productId = it.productId
      · simp only [hp, if_pos rfl]
        rw [hp] at *
        simp [hs]
      · simp only [if_neg hp]
        exact hex it' (List.mem_cons_of_mem _ hmem)
    obtain ⟨ps2, hps2, hspec⟩ := ih (decrementAll ps it.productId it.quantity) hrest
    refine ⟨ps2, ?_, ?_⟩
    · simp [applyBatch, hs, hps2]
    · intro pid
      rw [hspec pid, lookupDoc_decrementAll]
      by_cases hp : pid = it.productId
      · subst hp
        simp only [if_pos rfl, qsum, if_pos rfl, Option.map_map]
        cases h : lookupDoc ps it.productId <;> simp [Function.comp]
        ring
      · have hne : ¬ it.productId = pid := fun h => hp h.symm
        simp only [if_neg hp, qsum, if_neg hne]
        cases h : lookupDoc ps pid <;> simp

end KuraGalaan

namespace KuraGalaan

/-- C2: when the referenced payment intent exists but its status is not
"succeeded", process-order responds 400 with error "Payment not completed"
and performs no document writes: the store (orders, products, carts, users)
is returned exactly as it was. -/
theorem processOrder_not_succeeded (piStatus : String → Option String)
    (now : Int) (st : Store) (req : Req) (s : String)
    (hpi : piStatus req.paymentIntentId = some s) (hne : s ≠ "succeeded") :
    processOrder piStatus now st req = (st, POResp.err 400 "Payment not completed") := by
  simp [processOrder, hpi, hne]

/-- Witness for C2 at a concrete store and request with a pending payment
intent. -/
theorem processOrder_not_succeeded_witness :
    processOrder (fun s => if s = "pi1" then some "processing" else none) 5
        ⟨[], 0, [("p1", 10)], fun _ => none, []⟩
        ⟨"u1", [⟨"p1", 2⟩], some 30, "addr", "pi1"⟩ =
      (⟨[], 0, [("p1", 10)], fun _ => none, []⟩, POResp.err 400 "Payment not completed") :=
  processOrder_not_succeeded _ 5 _ _ "processing" (by simp) (by decide)

/-- A payments environment in which "pi1" has succeeded. -/
def piSucceeded : String → Option String :=
  fun s => if s = "pi1" then some "succeeded" else none

/-- A concrete store: two stocked products, one cart for user "u1", an admin
and a customer. -/
def sampleStore : Store :=
  ⟨[], 0, [("p1", 10), ("p2", 4)],
   fun u => if u = "u1" then some [⟨"p1", 1⟩] else none,
   [("admin1", ⟨"ada@example.com", "admin"⟩), ("bob", ⟨"bob@example.com", "customer"⟩)]⟩

/-- A concrete process-order request with two line items paid by "pi1". -/
def sampleReq : Req := ⟨"u1", [⟨"p1", 2⟩, ⟨"p2", 1⟩], some 30, "addr", "pi1"⟩

/-- C1: for every request whose referenced payment intent has status
"succeeded" (and whose items all reference existing product documents, so
that the batched update can commit), process-order appends exactly one new
order document with status "confirmed", decrements each referenced product's
stock by the total quantity its items request, deletes the cart document
keyed by userId, leaves every other cart untouched, and responds 200 with
the new order id and status success. -/
theorem processOrder_succeeded_effects (piStatus : String → Option String)
    (now : Int) (st : Store) (req : Req)
    (hpi : piStatus req.paymentIntentId = some "succeeded")
    (hex : ∀ it ∈ req.items, (lookupDoc st.products it.productId).isSome) :
    (processOrder piStatus now st req).2 = POResp.ok st.nextId ∧
    ((processOrder piStatus now st req).2).code = 200 ∧
    (processOrder piStatus now st req).1.orders =
      st.orders ++ [(st.nextId,
        ⟨req.userId, req.items, req.total, req.shippingAddress,
         req.paymentIntentId, "confirmed", now, now⟩)] ∧
    (∀ pid, lookupDoc (processOrder piStatus now st req).1.products pid =
      (lookupDoc st.products pid).map (fun s => s - qsum req.items pid)) ∧
    (processOrder piStatus now st req).1.carts req.userId = none ∧
    (∀ u, u ≠ req.userId → (processOrder piStatus now st req).1.carts u = st.carts u) := by
  obtain ⟨ps2, hps2, hspec⟩ := applyBatch_eq req.items st.products hex
  simp only [processOrder, hpi]
  simp only [ne_eq, not_true_eq_false, if_false, hps2]
  refine ⟨by trivial, by trivial, by trivial, hspec, by simp, fun u hu => by simp [hu]⟩

/-- Witness for C1: the concrete two-item request against the sample store
succeeds with the generated order id 0. -/
theorem processOrder_succeeded_effects_witness :
    (processOrder piSucceeded 7 sampleStore sampleReq).2 = POResp.ok 0 :=
  (processOrder_succeeded_effects piSucceeded 7 sampleStore sampleReq
    (by decide) (by decide)).1

/-- C10: for a request with a succeeded payment intent and an empty items
list, process-order still succeeds: it appends one order document whose
items list is empty, commits an empty batch so every product's stock is
unchanged, deletes the user's cart, and responds 200 with the new order id
and status success. -/
theorem processOrder_empty_items (piStatus : String → Option String)
    (now : Int) (st : Store) (req : Req)
    (hpi : piStatus req.paymentIntentId = some "succeeded")
    (hitems : req.items = []) :
    (processOrder piStatus now st req).2 = POResp.ok st.nextId ∧
    ((processOrder piStatus now st req).2).code = 200 ∧
    (processOrder piStatus now st req).1.orders =
      st.orders ++ [(st.nextId,
        ⟨req.userId, [], req.total, req.shippingAddress,
         req.paymentIntentId, "confirmed", now, now⟩)] ∧
    (processOrder piStatus now st req).1.products = st.products ∧
    (processOrder piStatus now st req).1.carts req.userId = none ∧
    (∀ u, u ≠ req.userId → (processOrder piStatus now st req).1.carts u = st.carts u) := by
  simp only [processOrder, hpi, hitems]
  simp only [ne_eq, not_true_eq_false, if_false, applyBatch]
  refine ⟨by trivial, by trivial, by trivial, by trivial, by simp, fun u hu => by simp [hu]⟩

/-- Witness for C10: an empty-items request against the sample store. -/
theorem processOrder_empty_items_witness :
    (processOrder piSucceeded 9 sampleStore ⟨"u1", [], some 0, "addr", "pi1"⟩).2 =
      POResp.ok 0 :=
  (processOrder_empty_items piSucceeded 9 sampleStore
    ⟨"u1", [], some 0, "addr", "pi1"⟩ (by decide) rfl).1

/-- C6: process-order is not idempotent.  Replaying the sample request with
the same paymentIntentId against the store produced by the first call
creates a second, distinct order document (ids 0 and 1, both confirmed and
both recording "pi1") and decrements each referenced product's stock twice:
p1 goes from 10 to 6 (quantity 2, twice) and p2 from 4 to 2 (quantity 1,
twice). -/
theorem processOrder_not_idempotent :
    (processOrder piSucceeded 1 sampleStore sampleReq).2 = POResp.ok 0 ∧
    (processOrder piSucceeded 2
        (processOrder piSucceeded 1 sampleStore sampleReq).1 sampleReq).2 =
      POResp.ok 1 ∧
    ((processOrder piSucceeded 2
        (processOrder piSucceeded 1 sampleStore sampleReq).1 sampleReq).1.orders.map
      Prod.fst) = [0, 1] ∧
    (∀ o ∈ (processOrder piSucceeded 2
        (processOrder piSucceeded 1 sampleStore sampleReq).1 sampleReq).1.orders,
      o.2.paymentIntentId = "pi1" ∧ o.2.status = "confirmed") ∧
    lookupDoc (processOrder piSucceeded 2
        (processOrder piSucceeded 1 sampleStore sampleReq).1 sampleReq).1.products "p1" =
      some 6 ∧
    lookupDoc (processOrder piSucceeded 2
        (processOrder piSucceeded 1 sampleStore sampleReq).1 sampleReq).1.products "p2" =
      some 2 := by
  decide

/-- The aggregated analytics payload (src/index.js lines 92-101). -/
structure AnalyticsData where
  totalOrders : Nat
  totalProducts : Nat
  totalUsers : Nat
  totalRevenue : Int
  recentOrders : List (Nat × Order)
deriving DecidableEq

/-- The HTTP response of the analytics handler. -/
inductive AResp where
  | ok (a : AnalyticsData)
  | err (code : Nat) (msg : String)
deriving DecidableEq

/-- JavaScript x or-else 0 on an optional numeric field: undefined, null and
the number 0 are falsy and yield 0. -/
def jsOrZero : Option Int → Int
  | none => 0
  | some v => if v = 0 then 0 else v

/-- The revenue reduction of src/index.js line 96. -/
def totalRevenueOf (docs : List (Nat × Order)) : Int :=
  docs.foldl (fun s d => s + jsOrZero d.2.total) 0

/-- The comparator of src/index.js line 98: an order with the later creation
timestamp comes first. -/
def createdDesc (a b : Nat × Order) : Prop := b.2.createdAt ≤ a.2.createdAt

instance : DecidableRel createdDesc :=
  fun a b => inferInstanceAs (Decidable (b.2.createdAt ≤ a.2.createdAt))

instance : IsTotal (Nat × Order) createdDesc := ⟨fun a b => le_total b.2.createdAt a.2.createdAt⟩

instance : IsTrans (Nat × Order) createdDesc := ⟨fun _ _ _ hab hbc => le_trans hbc hab⟩

/-- The recent-orders computation of src/index.js lines 97-100: sort the
order documents by creation timestamp descending, keep the first ten. -/
def recentOrdersOf (docs : List (Nat × Order)) : List (Nat × Order) :=
  (List.insertionSort createdDesc docs).take 10

/-- The aggregation over the three collection snapshots. -/
def analyticsOf (st : Store) : AnalyticsData :=
  ⟨st.orders.length, st.products.length, st.users.length,
   totalRevenueOf st.orders, recentOrdersOf st.orders⟩

/-- JavaScript String.split on a single separator character, keeping empty
parts, over the character list of the string. -/
def splitChars (sep : Char) : List Char → List (List Char)
  | [] => [[]]
  | c :: rest =>
    match splitChars sep rest with
    | [] => if c = sep then [[], []] else [[c]]
    | w :: ws => if c = sep then [] :: w :: ws else (c :: w) :: ws

/-- JavaScript s.split(sep) for a one-character separator. -/
def jsSplit (s : String) (sep : Char) : List String :=
  (splitChars sep s.data).map (fun cs => String.mk cs)

/-- Token extraction of src/index.js line 79: the second space-separated
part of the Authorization header, undefined when the header is absent or
has no second part. -/
def bearerToken (auth : Option String) : Option String :=
  auth.bind (fun s => (jsSplit s ' ').get? 1)

/-- The GET /analytics handler (src/index.js lines 76-107).  `verify` models
token verification: the uid of a valid token, `none` when verification
throws.  The second component of the result is the list of collections the
handler fully scanned, so absence of the three collection reads in the
error branches is an observable fact of the model. -/
def analyticsHandler (verify : String → Option String) (st : Store)
    (auth : Option String) : AResp × List String :=
  match bearerToken auth with
  | none => (.err 500 "token verification failed", [])
  | some tok =>
    match verify tok with
    | none => (.err 500 "token verification failed", [])
    | some uid =>
      match lookupDoc st.users uid with
      | none => (.err 403 "Unauthorized", [])
      | some u =>
        if u.role ≠ "admin" then (.err 403 "Unauthorized", [])
        else (.ok (analyticsOf st), ["orders", "products", "users"])

lemma foldl_add_eq {α : Type} (f : α → Int) (l : List α) (a : Int) :
    l.foldl (fun s d => s + f d) a = a + (l.map f).sum := by
  induction l generalizing a with
  | nil => simp
  | cons x xs ih => simp [ih, add_assoc]

lemma jsOrZero_eq (t : Option Int) : jsOrZero t = t.getD 0 := by
  cases t with
  | none => rfl
  | some v =>
    by_cases hv : v = 0
    · simp [jsOrZero, hv]
    · simp [jsOrZero, hv]

lemma totalRevenueOf_eq (docs : List (Nat × Order)) :
    totalRevenueOf docs = (docs.map (fun d => d.2.total.getD 0)).sum := by
  rw [totalRevenueOf, foldl_add_eq]
  simp [jsOrZero_eq]

lemma analyticsHandler_ok {verify : String → Option String} {st : Store}
    {auth : Option String} {a : AnalyticsData} {scans : List String}
    (h : analyticsHandler verify st auth = (AResp.ok a, scans)) :
    a = analyticsOf st ∧ scans = ["orders", "products", "users"] := by
  unfold analyticsHandler at h
  split at h
  · exact absurd h (by simp)
  · split at h
    · exact absurd h (by simp)
    · split at h
      · exact absurd h (by simp)
      · split at h
        · exact absurd h (by simp)
        · have h1 := congrArg Prod.fst h
          have h2 := congrArg Prod.snd h
          simp only [AResp.ok.injEq] at h1
          exact ⟨h1.symm, h2.symm⟩

/-- C3: when the bearer token verifies but the caller's user document is
missing or its role is not "admin", the analytics handler responds 403
Unauthorized and scans none of the orders, products, and users
collections. -/
theorem analytics_forbidden (verify : String → Option String) (st : Store)
    (auth : Option String) (tok uid : String)
    (htok : bearerToken auth = some tok) (hv : verify tok = some uid)
    (hrole : ∀ u, lookupDoc st.users uid = some u → u.role ≠ "admin") :
    analyticsHandler verify st auth = (AResp.err 403 "Unauthorized", []) := by
  simp only [analyticsHandler, htok, hv]
  cases h : lookupDoc st.users uid with
  | none => rfl
  | some u => simp [hrole u h]

/-- Witness for C3: a verified non-admin caller is refused without any
collection scan. -/
theorem analytics_forbidden_witness :
    analyticsHandler (fun t => if t = "tok-bob" then some "bob" else none)
        sampleStore (some "Bearer tok-bob") =
      (AResp.err 403 "Unauthorized", []) :=
  analytics_forbidden _ sampleStore (some "Bearer tok-bob") "tok-bob" "bob"
    (by decide) (by decide)
    (by
      intro u hu
      have h : (⟨"bob@example.com", "customer"⟩ : User) = u := Option.some.inj hu
      rw [← h]
      decide)

/-- C4: whenever the analytics handler returns a payload, its recentOrders
field is sorted by creation timestamp in descending order, contains at most
ten entries, and every entry is one of the store's order documents. -/
theorem analytics_recentOrders_sorted (verify : String → Option String)
    (st : Store) (auth : Option String) (a : AnalyticsData) (scans : List String)
    (h : analyticsHandler verify st auth = (AResp.ok a, scans)) :
    List.Sorted createdDesc a.recentOrders ∧
    a.recentOrders.length ≤ 10 ∧
    ∀ x ∈ a.recentOrders, x ∈ st.orders := by
  obtain ⟨ha, -⟩ := analyticsHandler_ok h
  subst ha
  refine ⟨?_, ?_, ?_⟩
  · exact List.Pairwise.sublist (List.take_sublist 10 _)
      (List.sorted_insertionSort createdDesc st.orders)
  · exact List.length_take_le 10 _
  · intro x hx
    exact (List.mem_insertionSort createdDesc).mp (List.take_subset 10 _ hx)

/-- C9: whenever the analytics handler returns a payload, its totalRevenue
field is the sum over all order documents of the total field, where an
absent (or otherwise falsy, e.g. zero) total contributes 0; in particular
the aggregation is total and never fails on an order without a total
field. -/
theorem analytics_totalRevenue_sum (verify : String → Option String)
    (st : Store) (auth : Option String) (a : AnalyticsData) (scans : List String)
    (h : analyticsHandler verify st auth = (AResp.ok a, scans)) :
    a.totalRevenue = (st.orders.map (fun d => d.2.total.getD 0)).sum := by
  obtain ⟨ha, -⟩ := analyticsHandler_ok h
  subst ha
  exact totalRevenueOf_eq st.orders

/-- A token-verification environment accepting the admin's token. -/
def verifyAdmin : String → Option String :=
  fun t => if t = "tok-admin" then some "admin1" else none

/-- A store with three orders (one without a total, one with total 0) owned
by an admin user, for exercising the analytics handler concretely. -/
def adminStore : Store :=
  ⟨[(0, ⟨"u1", [], some 30, "a", "pi1", "confirmed", 5, 5⟩),
    (1, ⟨"u2", [], none, "a", "pi2", "confirmed", 9, 9⟩),
    (2, ⟨"u3", [], some 0, "a", "pi3", "confirmed", 1, 1⟩)],
   3, [("p1", 10)], fun _ => none,
   [("admin1", ⟨"ada@example.com", "admin"⟩)]⟩

/-- Witness for C4: the payload returned to the admin over the three-order
store has recentOrders sorted descending, of length at most ten, drawn from
the stored orders. -/
theorem analytics_recentOrders_sorted_witness :
    List.Sorted createdDesc (analyticsOf adminStore).recentOrders ∧
    (analyticsOf adminStore).recentOrders.length ≤ 10 ∧
    ∀ x ∈ (analyticsOf adminStore).recentOrders, x ∈ adminStore.orders :=
  analytics_recentOrders_sorted verifyAdmin adminStore (some "Bearer tok-admin")
    (analyticsOf adminStore) ["orders", "products", "users"] (by decide)

/-- Witness for C9: the payload returned to the admin over the three-order
store reports as revenue the sum of the defaulted totals. -/
theorem analytics_totalRevenue_sum_witness :
    (analyticsOf adminStore).totalRevenue =
      (adminStore.orders.map (fun d => d.2.total.getD 0)).sum :=
  analytics_totalRevenue_sum verifyAdmin adminStore (some "Bearer tok-admin")
    (analyticsOf adminStore) ["orders", "products", "users"] (by decide)

/-- The request sent to the payments provider by create-payment-intent. -/
structure ProviderReq where
  amount : Int
  currency : String
  orderId : Option String
deriving DecidableEq

/-- The provider's successful answer: a payment intent carrying a client
secret. -/
structure PaymentIntent where
  clientSecret : String
deriving DecidableEq

/-- The HTTP response of the create-payment-intent handler. -/
inductive CPIResp where
  | ok (clientSecret : String)
  | err (code : Nat) (msg : String)
deriving DecidableEq

/-- JavaScript Math.round on the exact value of its argument: the nearest
integer, ties toward positive infinity, i.e. the floor of x + 1/2. -/
def jsMathRound (q : ℚ) : ℤ := ⌊q + 1 / 2⌋

/-- The minor-unit conversion of src/index.js line 21: Math.round of
amount * 100. -/
def centsOf (amount : ℚ) : ℤ := jsMathRound (amount * 100)

/-- The POST /create-payment-intent handler (src/index.js lines 16-30).
`provider` models stripe.paymentIntents.create; the body's currency field
defaults to "usd" when absent.  Besides the HTTP response, the result
records the request actually sent to the provider. -/
def createPaymentIntent (provider : ProviderReq → Except String PaymentIntent)
    (amount : ℚ) (currency : Option String) (orderId : Option String) :
    CPIResp × ProviderReq :=
  let sent : ProviderReq := ⟨centsOf amount, currency.getD "usd", orderId⟩
  match provider sent with
  | .ok pi => (.ok pi.clientSecret, sent)
  | .error e => (.err 500 e, sent)

/-- C5: for every positive amount, the minor-unit value that
create-payment-intent sends is amount * 100 rounded to a nearest integer
(it differs from the exact product by at most one half); in particular the
amount 19.995 is sent as 2000 minor units. -/
theorem centsOf_rounds :
    (∀ amount : ℚ, 0 < amount → |(centsOf amount : ℚ) - amount * 100| ≤ 1 / 2) ∧
    centsOf (19995 / 1000) = 2000 := by
  constructor
  · intro amount _
    have h1 := Int.floor_le (amount * 100 + 1 / 2)
    have h2 := Int.lt_floor_add_one (amount * 100 + 1 / 2)
    rw [centsOf, jsMathRound, abs_le]
    constructor <;> linarith
  · have h : (19995 / 1000 : ℚ) * 100 + 1 / 2 = 2000 := by norm_num
    rw [centsOf, jsMathRound, h]
    rw [Int.floor_eq_iff]
    constructor <;> norm_num

/-- Witness for C5 at the concrete amount 19.995. -/
theorem centsOf_rounds_witness :
    |((centsOf (19995 / 1000) : ℚ)) - (19995 / 1000) * 100| ≤ 1 / 2 :=
  centsOf_rounds.1 (19995 / 1000) (by norm_num)

/-- C8: create-payment-intent validates nothing: for every amount, zero and
negative included, the request sent to the provider carries Math.round of
amount * 100 with the defaulted currency and the metadata order id; when
the provider fails, the handler answers 500 carrying the provider's error
text, and when it succeeds, 200 with the client secret. -/
theorem createPaymentIntent_no_validation
    (provider : ProviderReq → Except String PaymentIntent) (amount : ℚ)
    (currency : Option String) (orderId : Option String) :
    (createPaymentIntent provider amount currency orderId).2 =
      ⟨centsOf amount, currency.getD "usd", orderId⟩ ∧
    (∀ e, provider ⟨centsOf amount, currency.getD "usd", orderId⟩ = .error e →
      (createPaymentIntent provider amount currency orderId).1 = .err 500 e) ∧
    (∀ pi, provider ⟨centsOf amount, currency.getD "usd", orderId⟩ = .ok pi →
      (createPaymentIntent provider amount currency orderId).1 = .ok pi.clientSecret) := by
  refine ⟨?_, fun e he => ?_, fun pi hpi => ?_⟩
  · cases h : provider ⟨centsOf amount, currency.getD "usd", orderId⟩ <;>
      simp [createPaymentIntent, h]
  · simp [createPaymentIntent, he]
  · simp [createPaymentIntent, hpi]

/-- Witness for C8: a negative amount of -5 currency units reaches the
provider as -500 minor units, and the provider's refusal surfaces as a 500
with its error text. -/
theorem createPaymentIntent_no_validation_witness :
    (createPaymentIntent (fun _ => Except.error "card declined") (-5) none none).2.amount =
      -500 ∧
    (createPaymentIntent (fun _ => Except.error "card declined") (-5) none none).1 =
      CPIResp.err 500 "card declined" :=
  ⟨by
    rw [(createPaymentIntent_no_validation
      (fun _ => Except.error "card declined") (-5) none none).1]
    show centsOf (-5) = -500
    have h : ((-5 : ℚ)) * 100 + 1 / 2 = -500 + 1 / 2 := by norm_num
    rw [centsOf, jsMathRound, h, Int.floor_eq_iff]
    constructor <;> norm_num,
   (createPaymentIntent_no_validation
      (fun _ => Except.error "card declined") (-5) none none).2.1 "card declined" rfl⟩

/-- A product document as read by the search-index trigger; every field may
be absent. -/
structure Product where
  name : Option String
  category : Option String
  description : Option String
  tags : Option (List String)
  price : Option Int
  images : Option (List String)
deriving DecidableEq

/-- A search-index document (src/index.js lines 146-154). -/
structure SearchDoc where
  productId : String
  name : Option String
  category : Option String
  price : Option Int
  image : Option String
  searchTerms : List String
  updatedAt : Int
deriving DecidableEq

/-- JavaScript String.toLowerCase, as the character-wise lower-casing of
the string's character list. -/
def jsToLower (s : String) : String := String.mk (s.data.map Char.toLower)

/-- JavaScript Array.filter(Boolean) over possibly-undefined strings:
undefined entries and empty strings are falsy and dropped. -/
def filterTruthy (l : List (Option String)) : List String :=
  l.filterMap (fun o =>
    match o with
    | none => none
    | some s => if s = "" then none else some s)

/-- The search-term derivation of src/index.js lines 138-143: the
lower-cased name, category, and description followed by the lower-cased
tags, with falsy entries filtered out. -/
def searchTermsOf (p : Product) : List String :=
  filterTruthy
    ([p.name.map jsToLower, p.category.map jsToLower,
      p.description.map jsToLower] ++
     (p.tags.getD []).map (fun t => some (jsToLower t)))

/-- The product-written trigger (src/index.js lines 127-155) acting on the
search_index collection.  `after` is the document state after the event:
`none` models a deletion, `some p` a create or update.  `now` models the
server timestamp. -/
def updateSearchIndex (now : Int) (productId : String) (after : Option Product)
    (idx : String → Option SearchDoc) : String → Option SearchDoc :=
  match after with
  | none => fun k => if k = productId then none else idx k
  | some p => fun k =>
      if k = productId then
        some ⟨productId, p.name, p.category, p.price, (p.images.getD []).get? 0,
              searchTermsOf p, now⟩
      else idx k

lemma mem_filterTruthy {l : List (Option String)} {t : String} :
    t ∈ filterTruthy l ↔ some t ∈ l ∧ t ≠ "" := by
  constructor
  · intro ht
    simp only [filterTruthy, List.mem_filterMap] at ht
    obtain ⟨o, ho, hm⟩ := ht
    cases o with
    | none => simp at hm
    | some s =>
      by_cases hs : s = ""
      · simp [hs] at hm
      · simp only [if_neg hs, Option.some.injEq] at hm
        subst hm
        exact ⟨ho, hs⟩
  · rintro ⟨ho, ht⟩
    simp only [filterTruthy, List.mem_filterMap]
    exact ⟨some t, ho, by simp [ht]⟩

lemma searchTermsOf_spec (p : Product) :
    ∀ t ∈ searchTermsOf p, t ≠ "" ∧
      t ∈ (([p.name, p.category, p.description].filterMap id ++
        p.tags.getD []).map jsToLower) := by
  intro t ht
  rw [searchTermsOf, mem_filterTruthy] at ht
  obtain ⟨hmem, hne⟩ := ht
  refine ⟨hne, ?_⟩
  rw [List.mem_append] at hmem
  rw [List.mem_map]
  cases hmem with
  | inl h =>
    rw [List.mem_cons, List.mem_cons, List.mem_singleton] at h
    rcases h with h | h | h
    · cases hn : p.name with
      | none => rw [hn] at h; exact absurd h (by simp)
      | some u =>
        rw [hn] at h
        refine ⟨u, List.mem_append.mpr (Or.inl (List.mem_filterMap.mpr
          ⟨some u, by simp [← hn], rfl⟩)), (Option.some.inj h).symm⟩
    · cases hn : p.category with
      | none => rw [hn] at h; exact absurd h (by simp)
      | some u =>
        rw [hn] at h
        refine ⟨u, List.mem_append.mpr (Or.inl (List.mem_filterMap.mpr
          ⟨some u, by simp [← hn], rfl⟩)), (Option.some.inj h).symm⟩
    · cases hn : p.description with
      | none => rw [hn] at h; exact absurd h (by simp)
      | some u =>
        rw [hn] at h
        refine ⟨u, List.mem_append.mpr (Or.inl (List.mem_filterMap.mpr
          ⟨some u, by simp [← hn], rfl⟩)), (Option.some.inj h).symm⟩
  | inr h =>
    rw [List.mem_map] at h
    obtain ⟨tg, htg, heq⟩ := h
    exact ⟨tg, List.mem_append.mpr (Or.inr htg), Option.some.inj heq⟩

/-- C7: on deletion of a product, the trigger removes the search-index
document with the same product id, leaving all others; on create or update
it writes, under that product id, the denormalized document whose
searchTerms are derived from name, category, description, and tags — every
term is non-empty and is the lower-casing of one of those present
fields. -/
theorem updateSearchIndex_spec (now : Int) (productId : String)
    (after : Option Product) (idx : String → Option SearchDoc) :
    (after = none →
      updateSearchIndex now productId after idx productId = none ∧
      ∀ k, k ≠ productId → updateSearchIndex now productId after idx k = idx k) ∧
    (∀ p, after = some p →
      updateSearchIndex now productId after idx productId =
        some ⟨productId, p.name, p.category, p.price,
              (p.images.getD []).get? 0, searchTermsOf p, now⟩ ∧
      (∀ k, k ≠ productId → updateSearchIndex now productId after idx k = idx k) ∧
      ∀ t ∈ searchTermsOf p, t ≠ "" ∧
        t ∈ (([p.name, p.category, p.description].filterMap id ++
          p.tags.getD []).map jsToLower)) := by
  constructor
  · intro hdel
    subst hdel
    exact ⟨by simp [updateSearchIndex], fun k hk => by simp [updateSearchIndex, hk]⟩
  · intro p hset
    subst hset
    exact ⟨by simp [updateSearchIndex], fun k hk => by simp [updateSearchIndex, hk],
      searchTermsOf_spec p⟩

/-- A concrete product: uppercase tag, empty description, empty images. -/
def sampleProduct : Product :=
  ⟨some "Phone", some "Electronics", some "", some ["a", "B"], some 5, some []⟩

/-- Witness for C7: writing the sample product stores lower-cased non-empty
search terms — tags a and B contribute a and b, and the empty description
is dropped — and deleting a product removes exactly its index document. -/
theorem updateSearchIndex_spec_witness :
    updateSearchIndex 3 "x" (some sampleProduct) (fun _ => none) "x" =
      some ⟨"x", some "Phone", some "Electronics", some 5, none,
            ["phone", "electronics", "a", "b"], 3⟩ ∧
    updateSearchIndex 3 "x" none
      (fun k => if k = "x" then
        some ⟨"x", none, none, none, none, [], 0⟩ else none) "x" = none :=
  ⟨by
    have h := ((updateSearchIndex_spec 3 "x" (some sampleProduct)
      (fun _ => none)).2 sampleProduct rfl).1
    exact h.trans (by decide),
   ((updateSearchIndex_spec 3 "x" none
      (fun k => if k = "x" then
        some ⟨"x", none, none, none, none, [], 0⟩ else none)).1 rfl).1⟩

end KuraGalaan
